import Mathlib

/-!
Shallow embedding of the simulation / assessment / broadcast core of the
EWDB-03 backend (`src/backend/server.py`), together with theorems settling
a list of specification claims about it.

Conventions of the embedding:
* Python floats are modelled as exact rationals `ℚ`.
* Python dict access `d["k"]` becomes a structure field; `d.get("k", v)`
  becomes an `Option` field read with `Option.getD`.
* Every call to `random.uniform(a, b)` / `random.choice` is replaced by an
  explicitly passed deviate; theorems that depend on the deviate's range
  assume it as a hypothesis (the range stated in the source call).
* Wall-clock timestamps (`datetime.now(...).isoformat()`) are passed in as
  opaque strings.
* A Python statement that can raise is modelled with `Option`/`Except`;
  `none` / `Except.error` is the raised exception.
-/

namespace EWDB

/-- The emitter dictionaries consumed by `BattlefieldSimulator` methods
(`generate_signal_update`, `assess_threat`).  The source reads
`emitter["name"]`, `emitter["latitude"]`, `emitter["longitude"]`,
`emitter["frequency_min"]`, `emitter["frequency_max"]`,
`emitter["affiliation"]`, `emitter["threat_level"]` directly, and uses
`emitter.get("id", …)` / `emitter.get("confidence", 0.85)`, so `id` and
`confidence` are optional here. -/
structure EmitterDict where
  id : Option String
  name : String
  latitude : ℚ
  longitude : ℚ
  frequency_min : ℚ
  frequency_max : ℚ
  confidence : Option ℚ
  affiliation : String
  threat_level : String
deriving Repr, DecidableEq

/-- The dict returned by `BattlefieldSimulator.generate_signal_update`
(server.py lines 1037-1048). -/
structure SignalUpdate where
  emitter_id : String
  name : String
  latitude : ℚ
  longitude : ℚ
  signal_strength : ℚ
  frequency : ℚ
  confidence : ℚ
  timestamp : String
  affiliation : String
  threat_level : String
deriving Repr, DecidableEq

/-- The random deviates drawn by one call of `generate_signal_update`:
`variation = random.uniform(-0.02, 0.02)`, then one `random.uniform` each
for latitude (±0.01), longitude (±0.01), signal strength (±10) and
frequency (±5). -/
structure SigRand where
  variation : ℚ
  dlat : ℚ
  dlon : ℚ
  dstrength : ℚ
  dfreq : ℚ
deriving Repr, DecidableEq

/-- `BattlefieldSimulator.generate_signal_update` (server.py lines
1034-1048).  `fallback_id` stands for the `str(uuid.uuid4())` default of
`emitter.get("id", …)`; `now` for the `datetime.now(...).isoformat()`
timestamp. -/
def generate_signal_update (emitter : EmitterDict) (r : SigRand)
    (fallback_id now : String) : SignalUpdate :=
  { emitter_id := emitter.id.getD fallback_id
    name := emitter.name
    latitude := emitter.latitude + r.dlat
    longitude := emitter.longitude + r.dlon
    signal_strength := -50 + r.dstrength
    frequency := (emitter.frequency_min + emitter.frequency_max) / 2 + r.dfreq
    confidence := min 1 (emitter.confidence.getD (85/100) + r.variation)
    timestamp := now
    affiliation := emitter.affiliation
    threat_level := emitter.threat_level }

/-- State-passing embedding of the same method: the Python function
receives the emitter dict by reference, so a faithful state-passing
translation threads that dict through and returns it next to the new
dict.  The body of `generate_signal_update` contains no assignment to
`emitter` or to any of its keys — only reads — so the threaded dict comes
back exactly as it went in. -/
def generate_signal_update_st (emitter : EmitterDict) (r : SigRand)
    (fallback_id now : String) : EmitterDict × SignalUpdate :=
  let update : SignalUpdate :=
    { emitter_id := emitter.id.getD fallback_id
      name := emitter.name
      latitude := emitter.latitude + r.dlat
      longitude := emitter.longitude + r.dlon
      signal_strength := -50 + r.dstrength
      frequency := (emitter.frequency_min + emitter.frequency_max) / 2 + r.dfreq
      confidence := min 1 (emitter.confidence.getD (85/100) + r.variation)
      timestamp := now
      affiliation := emitter.affiliation
      threat_level := emitter.threat_level }
  (emitter, update)

/-- The lookup `{"critical": 0.95, "high": 0.75, "medium": 0.5,
"low": 0.25}.get(emitter["threat_level"], 0.5)` (server.py lines
1052-1053). -/
def threat_scores (threat_level : String) : ℚ :=
  if threat_level = "critical" then 95/100
  else if threat_level = "high" then 75/100
  else if threat_level = "medium" then 1/2
  else if threat_level = "low" then 1/4
  else 1/2

/-- `kill_chain_phases = ["detection", "tracking", "engagement",
"intercept"]` (server.py line 1061). -/
def kill_chain_phases : List String :=
  ["detection", "tracking", "engagement", "intercept"]

/-- The random draws of one `assess_threat` call: `phase_idx` is the index
picked by `random.choice(kill_chain_phases[:2])` (a two-element list, so an
index below 2), and `tti` the value of `random.uniform(30, 300)`. -/
structure ThreatRand where
  phase_idx : Fin 2
  tti : ℚ
deriving Repr, DecidableEq

/-- The dict returned by `BattlefieldSimulator.assess_threat`
(server.py lines 1072-1080). -/
structure ThreatAssessmentResult where
  emitter_id : String
  emitter_name : String
  threat_score : ℚ
  kill_chain_phase : String
  time_to_impact : Option ℚ
  recommended_actions : List String
  assessed_at : String
deriving Repr, DecidableEq

/-- `BattlefieldSimulator.assess_threat` (server.py lines 1050-1080).
The base score is looked up (default 0.5), multiplied by 1.2 for hostile
or 0.1 for friendly affiliation, the phase is one of the first two
kill-chain phases for hostile emitters and "monitoring" otherwise, the
action list and the presence of `time_to_impact` are banded on the
unclamped score, and the returned score is clamped to at most 1.0. -/
def assess_threat (emitter : EmitterDict) (r : ThreatRand)
    (now : String) : ThreatAssessmentResult :=
  let base_score0 := threat_scores emitter.threat_level
  let base_score :=
    if emitter.affiliation = "hostile" then base_score0 * (12/10)
    else if emitter.affiliation = "friendly" then base_score0 * (1/10)
    else base_score0
  let phase :=
    if emitter.affiliation = "hostile" then
      (kill_chain_phases.take 2).getD r.phase_idx.val ""
    else "monitoring"
  let actions :=
    if base_score > 7/10 then
      ["Activate ECM", "Deploy decoys", "Maneuver to minimize exposure"]
    else if base_score > 4/10 then
      ["Continue monitoring", "Prepare countermeasures"]
    else
      ["Track for intelligence", "Log to database"]
  { emitter_id := emitter.id.getD "unknown"
    emitter_name := emitter.name
    threat_score := min 1 base_score
    kill_chain_phase := phase
    time_to_impact := if base_score > 7/10 then some r.tti else none
    recommended_actions := actions
    assessed_at := now }

/-- A WebSocket channel as the broadcast code sees it: an identity, plus
whether `await connection.send_json(message)` raises on it. -/
structure Channel where
  cid : ℕ
  send_fails : Bool
deriving Repr, DecidableEq

/-- `ConnectionManager` (server.py lines 1086-1102): holds the list
`active_connections`. -/
structure ConnectionManager where
  active_connections : List Channel
deriving Repr, DecidableEq

/-- `connection.send_json(message)`: delivers (returning the channel id as
the delivery receipt) or raises. -/
def send_json (c : Channel) (_message : String) : Except String ℕ :=
  if c.send_fails then Except.error "send failed" else Except.ok c.cid

/-- The loop body of `ConnectionManager.broadcast` (server.py lines
1098-1102): for each connection try `send_json`, and on exception `pass`.
Returns the ids of the channels the message was delivered to, in order. -/
def broadcast_deliveries (message : String) : List Channel → List ℕ
  | [] => []
  | c :: rest =>
    match send_json c message with
    | Except.ok cid => cid :: broadcast_deliveries message rest
    | Except.error _ => broadcast_deliveries message rest

/-- `ConnectionManager.broadcast` (server.py lines 1097-1102): iterates
over `active_connections` without modifying it, swallowing per-channel
send failures; the function itself never raises, so its result is a plain
pair (unchanged manager, delivery list), not an `Except`. -/
def ConnectionManager.broadcast (m : ConnectionManager) (message : String) :
    ConnectionManager × List ℕ :=
  (m, broadcast_deliveries message m.active_connections)

/-- `ConnectionManager.connect` (server.py lines 1090-1092):
`self.active_connections.append(websocket)`. -/
def ConnectionManager.connect (m : ConnectionManager) (w : Channel) :
    ConnectionManager :=
  ⟨m.active_connections ++ [w]⟩

/-- Python `list.remove(x)`: removes the first occurrence of `x`, raising
`ValueError` (here `none`) when `x` is absent. -/
def list_remove : List Channel → Channel → Option (List Channel)
  | [], _ => none
  | c :: rest, w =>
    if c = w then some rest else (list_remove rest w).map (c :: ·)

/-- `ConnectionManager.disconnect` (server.py lines 1094-1095):
`self.active_connections.remove(websocket)`; `none` is the propagated
`ValueError`. -/
def ConnectionManager.disconnect (m : ConnectionManager) (w : Channel) :
    Option ConnectionManager :=
  (list_remove m.active_connections w).map (⟨·⟩)

/-- The `EmitterCreate` pydantic model (server.py lines 54-69), after
parsing: defaults (`altitude = 0`, `confidence = 0.85`,
`affiliation = "hostile"`) are already applied, so every field is
concrete except the genuinely optional ones. -/
structure EmitterCreate where
  name : String
  emitter_type : String
  platform : String
  origin : String
  threat_level : String
  frequency_min : ℚ
  frequency_max : ℚ
  prf : Option ℚ
  pulse_width : Option ℚ
  modulation_type : Option String
  latitude : ℚ
  longitude : ℚ
  altitude : ℚ
  confidence : ℚ
  affiliation : String
deriving Repr, DecidableEq

/-- The `Emitter` pydantic model (server.py lines 32-52).  The model
declares no validator: any rational values are accepted for
`frequency_min` / `frequency_max`. -/
structure Emitter where
  id : String
  name : String
  emitter_type : String
  platform : String
  origin : String
  threat_level : String
  frequency_min : ℚ
  frequency_max : ℚ
  prf : Option ℚ
  pulse_width : Option ℚ
  modulation_type : Option String
  latitude : ℚ
  longitude : ℚ
  altitude : ℚ
  confidence : ℚ
  is_active : Bool
  affiliation : String
  last_detected : String
  created_at : String
deriving Repr, DecidableEq

/-- `create_emitter` (server.py lines 1136-1141):
`Emitter(**emitter.model_dump())` — every payload field is copied verbatim,
the generated fields (`id`, timestamps, `is_active`) are filled from the
defaults.  `new_id` stands for the `str(uuid.uuid4())` default and `now`
for the two timestamp defaults. -/
def create_emitter (p : EmitterCreate) (new_id now : String) : Emitter :=
  { id := new_id
    name := p.name
    emitter_type := p.emitter_type
    platform := p.platform
    origin := p.origin
    threat_level := p.threat_level
    frequency_min := p.frequency_min
    frequency_max := p.frequency_max
    prf := p.prf
    pulse_width := p.pulse_width
    modulation_type := p.modulation_type
    latitude := p.latitude
    longitude := p.longitude
    altitude := p.altitude
    confidence := p.confidence
    is_active := true
    affiliation := p.affiliation
    last_detected := now
    created_at := now }

/-- The response dict of `assess_all_threats` (server.py lines 1238-1243). -/
structure AssessResponse where
  total_threats : ℕ
  critical_count : ℕ
  assessments : List ThreatAssessmentResult
  timestamp : String
deriving Repr, DecidableEq

/-- The descending-score order used by
`sorted(assessments, key=lambda x: x["threat_score"], reverse=True)`. -/
def score_ge (a b : ThreatAssessmentResult) : Prop :=
  b.threat_score ≤ a.threat_score

instance : DecidableRel score_ge := fun a b =>
  inferInstanceAs (Decidable (b.threat_score ≤ a.threat_score))

/-- `assess_all_threats` (server.py lines 1230-1243).  The route queries
only emitters with `affiliation == "hostile"` (both the database query and
the sample fallback filter on that), assesses each, counts the assessments
with score strictly above 0.8 as `critical_count`, and returns the
assessments sorted by descending score.  The hostile filter is applied
here to the supplied emitter list; `rs` supplies one `ThreatRand` per
assessed emitter (zipped). -/
def assess_all_threats (emitters : List EmitterDict) (rs : List ThreatRand)
    (now : String) : AssessResponse :=
  let hostiles := emitters.filter (fun e => e.affiliation = "hostile")
  let assessments := (hostiles.zip rs).map (fun p => assess_threat p.1 p.2 now)
  { total_threats := assessments.length
    critical_count := (assessments.filter (fun a => a.threat_score > 8/10)).length
    assessments := assessments.insertionSort score_ge
    timestamp := now }

/-! ### Helper abbreviations and projection lemmas -/

/-- The local `base_score` of `assess_threat` after the affiliation
adjustment (server.py lines 1053-1059), extracted for reuse in proofs. -/
def threat_base (e : EmitterDict) : ℚ :=
  if e.affiliation = "hostile" then threat_scores e.threat_level * (12/10)
  else if e.affiliation = "friendly" then threat_scores e.threat_level * (1/10)
  else threat_scores e.threat_level

lemma assess_threat_score (e : EmitterDict) (r : ThreatRand) (now : String) :
    (assess_threat e r now).threat_score = min 1 (threat_base e) := rfl

lemma assess_threat_actions (e : EmitterDict) (r : ThreatRand) (now : String) :
    (assess_threat e r now).recommended_actions =
      (if threat_base e > 7/10 then
        ["Activate ECM", "Deploy decoys", "Maneuver to minimize exposure"]
      else if threat_base e > 4/10 then
        ["Continue monitoring", "Prepare countermeasures"]
      else
        ["Track for intelligence", "Log to database"]) := rfl

lemma assess_threat_tti (e : EmitterDict) (r : ThreatRand) (now : String) :
    (assess_threat e r now).time_to_impact =
      (if threat_base e > 7/10 then some r.tti else none) := rfl

lemma assess_threat_phase (e : EmitterDict) (r : ThreatRand) (now : String) :
    (assess_threat e r now).kill_chain_phase =
      (if e.affiliation = "hostile" then
        (kill_chain_phases.take 2).getD r.phase_idx.val ""
      else "monitoring") := rfl

lemma min_one_gt_iff (b t : ℚ) (ht : t < 1) : min 1 b > t ↔ b > t := by
  constructor
  · intro h
    rcases min_cases (1 : ℚ) b with ⟨hm, hc⟩ | ⟨hm, hc⟩ <;> rw [hm] at h <;> linarith
  · intro h
    rcases min_cases (1 : ℚ) b with ⟨hm, hc⟩ | ⟨hm, hc⟩ <;> rw [hm] <;> linarith

/-! ### Claim theorems -/

/-- C1: for every emitter whose `threat_level` is one of the four table
entries, `assess_threat` returns `threat_score = min(1.0, base * m)` with
`base` per the table (critical 0.95, high 0.75, medium 0.5, low 0.25) and
`m = 1.2` for hostile, `0.1` for friendly, `1.0` otherwise; in particular
critical + hostile scores exactly 1.0. -/
theorem assess_threat_score_formula (e : EmitterDict) (r : ThreatRand)
    (now : String) (base : ℚ)
    (hbase : (e.threat_level = "critical" ∧ base = 95/100) ∨
             (e.threat_level = "high" ∧ base = 75/100) ∨
             (e.threat_level = "medium" ∧ base = 1/2) ∨
             (e.threat_level = "low" ∧ base = 1/4)) :
    (assess_threat e r now).threat_score =
      min 1 (base * (if e.affiliation = "hostile" then 12/10
                     else if e.affiliation = "friendly" then 1/10 else 1)) ∧
    (e.threat_level = "critical" → e.affiliation = "hostile" →
      (assess_threat e r now).threat_score = 1) := by
  constructor
  · have hts : threat_scores e.threat_level = base := by
      rcases hbase with ⟨hl, hb⟩ | ⟨hl, hb⟩ | ⟨hl, hb⟩ | ⟨hl, hb⟩ <;>
        rw [hl, hb] <;> rfl
    rw [assess_threat_score]
    simp only [threat_base, hts]
    split_ifs <;> ring_nf
  · intro hc ha
    rw [assess_threat_score]
    simp only [threat_base, threat_scores, hc, ha]
    norm_num

/-- Witness for C1 at a concrete critical + hostile emitter: the clamped
score is exactly 1. -/
theorem assess_threat_score_formula_witness :
    (assess_threat
      ⟨some "e1", "Alpha", 0, 0, 100, 200, some (85/100), "hostile", "critical"⟩
      ⟨0, 100⟩ "t").threat_score = 1 :=
  (assess_threat_score_formula _ _ _ (95/100) (Or.inl ⟨rfl, rfl⟩)).2 rfl rfl

/-- C2: the recommended actions and the presence of `time_to_impact` are
determined by the returned score's band, the bands being mutually
exclusive: score > 0.7 gives the ECM/decoy/maneuver list and a
`time_to_impact` in [30, 300]; 0.4 < score ≤ 0.7 gives the
monitoring/countermeasure list and no `time_to_impact`; score ≤ 0.4 gives
the intelligence/log list and no `time_to_impact`.  The hypotheses are the
range of `random.uniform(30, 300)`. -/
theorem assess_threat_action_bands (e : EmitterDict) (r : ThreatRand)
    (now : String) (htti_lo : 30 ≤ r.tti) (htti_hi : r.tti ≤ 300) :
    ((assess_threat e r now).threat_score > 7/10 →
      (assess_threat e r now).recommended_actions =
        ["Activate ECM", "Deploy decoys", "Maneuver to minimize exposure"] ∧
      ∃ t, (assess_threat e r now).time_to_impact = some t ∧
        30 ≤ t ∧ t ≤ 300) ∧
    (4/10 < (assess_threat e r now).threat_score ∧
        (assess_threat e r now).threat_score ≤ 7/10 →
      (assess_threat e r now).recommended_actions =
        ["Continue monitoring", "Prepare countermeasures"] ∧
      (assess_threat e r now).time_to_impact = none) ∧
    ((assess_threat e r now).threat_score ≤ 4/10 →
      (assess_threat e r now).recommended_actions =
        ["Track for intelligence", "Log to database"] ∧
      (assess_threat e r now).time_to_impact = none) := by
  rw [assess_threat_score, assess_threat_actions, assess_threat_tti]
  set b := threat_base e with hb
  refine ⟨?_, ?_, ?_⟩
  · intro h
    have h7 : b > 7/10 := (min_one_gt_iff b (7/10) (by norm_num)).mp h
    rw [if_pos h7, if_pos h7]
    exact ⟨rfl, r.tti, rfl, htti_lo, htti_hi⟩
  · rintro ⟨h4, h7⟩
    have hb4 : b > 4/10 := (min_one_gt_iff b (4/10) (by norm_num)).mp h4
    have hb7 : ¬ b > 7/10 := by
      intro hgt
      have := (min_one_gt_iff b (7/10) (by norm_num)).mpr hgt
      linarith
    rw [if_neg hb7, if_pos hb4, if_neg hb7]
    exact ⟨rfl, rfl⟩
  · intro h
    have hb4 : ¬ b > 4/10 := by
      intro hgt
      have := (min_one_gt_iff b (4/10) (by norm_num)).mpr hgt
      linarith
    have hb7 : ¬ b > 7/10 := by
      intro hgt
      exact hb4 (by linarith)
    rw [if_neg hb7, if_neg hb4, if_neg hb7]
    exact ⟨rfl, rfl⟩

/-- Witness for C2 at a concrete critical + hostile emitter (score 1.0,
top band) with `tti = 100`. -/
theorem assess_threat_action_bands_witness :
    (assess_threat
      ⟨some "e2", "Bravo", 0, 0, 100, 200, some (85/100), "hostile", "critical"⟩
      ⟨0, 100⟩ "t").recommended_actions =
      ["Activate ECM", "Deploy decoys", "Maneuver to minimize exposure"] ∧
    ∃ t, (assess_threat
      ⟨some "e2", "Bravo", 0, 0, 100, 200, some (85/100), "hostile", "critical"⟩
      ⟨0, 100⟩ "t").time_to_impact = some t ∧ 30 ≤ t ∧ t ≤ 300 :=
  (assess_threat_action_bands _ _ "t" (by norm_num) (by norm_num)).1
    (by rw [assess_threat_score]; simp [threat_base, threat_scores]; norm_num)

/-- C4: the kill-chain phase is an element of {"detection", "tracking"}
for hostile emitters (never "engagement" or "intercept", regardless of
score) and exactly "monitoring" for every other affiliation. -/
theorem assess_threat_phase_cases (e : EmitterDict) (r : ThreatRand)
    (now : String) :
    (e.affiliation = "hostile" →
      (assess_threat e r now).kill_chain_phase ∈
        (["detection", "tracking"] : List String)) ∧
    (e.affiliation ≠ "hostile" →
      (assess_threat e r now).kill_chain_phase = "monitoring") := by
  rw [assess_threat_phase]
  constructor
  · intro h
    rw [if_pos h]
    have hlt := r.phase_idx.isLt
    have h2 : r.phase_idx.val = 0 ∨ r.phase_idx.val = 1 := by omega
    rcases h2 with h2 | h2 <;> rw [h2] <;> simp [kill_chain_phases]
  · intro h
    rw [if_neg h]

/-- Witness for C4: a hostile emitter with the "tracking" draw lands in
the two-phase set, a neutral emitter gets "monitoring". -/
theorem assess_threat_phase_cases_witness :
    (assess_threat
      ⟨some "e4", "Delta", 0, 0, 100, 200, some (85/100), "hostile", "high"⟩
      ⟨1, 100⟩ "t").kill_chain_phase ∈
      (["detection", "tracking"] : List String) ∧
    (assess_threat
      ⟨some "e5", "Echo", 0, 0, 100, 200, some (85/100), "neutral", "high"⟩
      ⟨0, 100⟩ "t").kill_chain_phase = "monitoring" :=
  ⟨(assess_threat_phase_cases _ _ "t").1 rfl,
   (assess_threat_phase_cases _ _ "t").2 (by decide)⟩

/-- C5: an unrecognized `threat_level` does not raise (the function is
total) and falls back to base score 0.5; in particular "unknown_value"
with affiliation "neutral" scores exactly 0.5 and gets the
monitoring/countermeasure action list. -/
theorem assess_threat_unknown_level (e : EmitterDict) (r : ThreatRand)
    (now : String)
    (h : e.threat_level ∉ (["critical", "high", "medium", "low"] : List String)) :
    (assess_threat e r now).threat_score =
      min 1 ((1/2) * (if e.affiliation = "hostile" then 12/10
                      else if e.affiliation = "friendly" then 1/10 else 1)) ∧
    (e.threat_level = "unknown_value" → e.affiliation = "neutral" →
      (assess_threat e r now).threat_score = 1/2 ∧
      (assess_threat e r now).recommended_actions =
        ["Continue monitoring", "Prepare countermeasures"]) := by
  obtain ⟨h1, h2, h3, h4⟩ :
      e.threat_level ≠ "critical" ∧ e.threat_level ≠ "high" ∧
      e.threat_level ≠ "medium" ∧ e.threat_level ≠ "low" := by
    simpa [not_or] using h
  have hts : threat_scores e.threat_level = 1/2 := by
    rw [threat_scores, if_neg h1, if_neg h2, if_neg h3, if_neg h4]
  constructor
  · rw [assess_threat_score]
    simp only [threat_base, hts]
    split_ifs <;> ring_nf
  · intro _ ha
    have hbase : threat_base e = 1/2 := by
      simp only [threat_base, hts, ha]
      simp
    constructor
    · rw [assess_threat_score, hbase]
      norm_num
    · rw [assess_threat_actions, hbase]
      rw [if_neg (by norm_num : ¬ (1/2 : ℚ) > 7/10),
          if_pos (by norm_num : (1/2 : ℚ) > 4/10)]

/-- Witness for C5 at threat level "unknown_value", affiliation
"neutral". -/
theorem assess_threat_unknown_level_witness :
    (assess_threat
      ⟨some "e6", "Foxtrot", 0, 0, 100, 200, some (85/100), "neutral",
        "unknown_value"⟩ ⟨0, 100⟩ "t").threat_score = 1/2 ∧
    (assess_threat
      ⟨some "e6", "Foxtrot", 0, 0, 100, 200, some (85/100), "neutral",
        "unknown_value"⟩ ⟨0, 100⟩ "t").recommended_actions =
      ["Continue monitoring", "Prepare countermeasures"] :=
  (assess_threat_unknown_level _ _ "t" (by decide)).2 rfl rfl

/-- C3: with the deviates in their `random.uniform` ranges, the output
frequency lies within ±5 of the frequency midpoint, and the output
confidence lies in `[input_confidence − 0.02, min(1.0,
input_confidence + 0.02)]`, hence is at most 1.0; the last conjunct shows
the exact value `min 1 (input + variation)` — an upper clamp only, no
lower clamp.  `hconf` is the data-model invariant `confidence ∈ [0, 1]`
of the input emitter (only the upper half is needed). -/
theorem generate_signal_update_bounds (e : EmitterDict) (r : SigRand)
    (fallback_id now : String)
    (hfreq : e.frequency_min ≤ e.frequency_max)
    (hconf : e.confidence.getD (85/100) ≤ 1)
    (hdf_lo : -5 ≤ r.dfreq) (hdf_hi : r.dfreq ≤ 5)
    (hv_lo : -(1/50) ≤ r.variation) (hv_hi : r.variation ≤ 1/50) :
    ((e.frequency_min + e.frequency_max) / 2 - 5 ≤
        (generate_signal_update e r fallback_id now).frequency ∧
      (generate_signal_update e r fallback_id now).frequency ≤
        (e.frequency_min + e.frequency_max) / 2 + 5) ∧
    (e.confidence.getD (85/100) - 1/50 ≤
        (generate_signal_update e r fallback_id now).confidence ∧
      (generate_signal_update e r fallback_id now).confidence ≤
        min 1 (e.confidence.getD (85/100) + 1/50)) ∧
    (generate_signal_update e r fallback_id now).confidence ≤ 1 ∧
    (generate_signal_update e r fallback_id now).confidence =
      min 1 (e.confidence.getD (85/100) + r.variation) := by
  simp only [generate_signal_update]
  set c := e.confidence.getD (85/100) with hc
  refine ⟨⟨by linarith, by linarith⟩, ⟨?_, ?_⟩, ?_, by trivial⟩
  · rcases min_cases (1 : ℚ) (c + r.variation) with ⟨hm, h2⟩ | ⟨hm, h2⟩ <;>
      rw [hm] <;> linarith
  · exact min_le_min le_rfl (by linarith)
  · exact min_le_left _ _

/-- Witness for C3 at a concrete emitter (confidence 0.85, variation
+0.01): the output confidence stays at most 1. -/
theorem generate_signal_update_bounds_witness :
    (generate_signal_update
      ⟨some "e3", "Charlie", 0, 0, 100, 200, some (85/100), "hostile", "high"⟩
      ⟨1/100, 0, 0, 0, 3⟩ "u" "t").confidence ≤ 1 :=
  (generate_signal_update_bounds _ _ "u" "t" (by norm_num)
    (by norm_num [Option.getD]) (by norm_num) (by norm_num) (by norm_num)
    (by norm_num)).2.2.1

lemma broadcast_deliveries_complete (msg : String) :
    ∀ (cs : List Channel) (c : Channel), c ∈ cs → c.send_fails = false →
      c.cid ∈ broadcast_deliveries msg cs := by
  intro cs
  induction cs with
  | nil => intro c h _; cases h
  | cons d rest ih =>
    intro c hc hfail
    rcases List.mem_cons.mp hc with h | h
    · subst h
      simp [broadcast_deliveries, send_json, hfail]
    · cases hd : d.send_fails <;>
        simp [broadcast_deliveries, send_json, hd] <;>
        first
          | exact Or.inr (ih c h hfail)
          | exact ih c h hfail

/-- C6: a failing channel does not disturb a broadcast: the manager's
active set is returned unchanged (in particular the failing channel is
not removed), the call is total (the per-channel failure is swallowed, so
nothing propagates to the caller), and the message is delivered to every
registered channel whose send does not fail. -/
theorem broadcast_isolates_failures (m : ConnectionManager) (msg : String) :
    ((m.broadcast msg).1 = m) ∧
    (∀ c ∈ m.active_connections, c.send_fails = false →
      c.cid ∈ (m.broadcast msg).2) := by
  refine ⟨rfl, ?_⟩
  intro c hc hfail
  exact broadcast_deliveries_complete msg m.active_connections c hc hfail

/-- Witness for C6: three channels, the middle one failing — the two
healthy channels both receive the message and the set is unchanged. -/
theorem broadcast_isolates_failures_witness :
    ((ConnectionManager.mk [⟨1, false⟩, ⟨2, true⟩, ⟨3, false⟩]).broadcast
        "m").1 = ConnectionManager.mk [⟨1, false⟩, ⟨2, true⟩, ⟨3, false⟩] ∧
    (1 : ℕ) ∈ ((ConnectionManager.mk
        [⟨1, false⟩, ⟨2, true⟩, ⟨3, false⟩]).broadcast "m").2 ∧
    (3 : ℕ) ∈ ((ConnectionManager.mk
        [⟨1, false⟩, ⟨2, true⟩, ⟨3, false⟩]).broadcast "m").2 :=
  ⟨(broadcast_isolates_failures _ "m").1,
   (broadcast_isolates_failures _ "m").2 ⟨1, false⟩ (by decide) rfl,
   (broadcast_isolates_failures _ "m").2 ⟨3, false⟩ (by decide) rfl⟩

lemma list_remove_of_not_mem :
    ∀ (l : List Channel) (w : Channel), w ∉ l → list_remove l w = none := by
  intro l
  induction l with
  | nil => intro w _; rfl
  | cons c rest ih =>
    intro w h
    obtain ⟨h1, h2⟩ : w ≠ c ∧ w ∉ rest := by simpa [not_or] using h
    have hcw : ¬ c = w := fun hcw => h1 hcw.symm
    simp [list_remove, hcw, ih w h2]

lemma list_remove_of_mem :
    ∀ (l : List Channel) (w : Channel), w ∈ l →
      ∃ l₁ l₂, w ∉ l₁ ∧ l = l₁ ++ w :: l₂ ∧
        list_remove l w = some (l₁ ++ l₂) := by
  intro l
  induction l with
  | nil => intro w h; cases h
  | cons c rest ih =>
    intro w h
    by_cases hc : c = w
    · subst hc
      exact ⟨[], rest, by simp, rfl, by simp [list_remove]⟩
    · have hw : w ∈ rest := by
        rcases List.mem_cons.mp h with h1 | h1
        · exact absurd h1.symm hc
        · exact h1
      obtain ⟨l₁, l₂, h1, h2, h3⟩ := ih w hw
      refine ⟨c :: l₁, l₂, ?_, by rw [h2]; rfl, ?_⟩
      · simp only [List.mem_cons, not_or]
        exact ⟨fun he => hc he.symm, h1⟩
      · simp [list_remove, hc, h3]

/-- C7 (amended): `disconnect` removes the first occurrence of the
channel when it is registered; when the channel is NOT in the active set,
`list.remove` raises `ValueError` (modelled as `none`), i.e. the
operation is not a silent no-op. -/
theorem disconnect_remove_spec (m : ConnectionManager) (w : Channel) :
    (w ∉ m.active_connections → m.disconnect w = none) ∧
    (w ∈ m.active_connections →
      ∃ l₁ l₂, w ∉ l₁ ∧ m.active_connections = l₁ ++ w :: l₂ ∧
        m.disconnect w = some ⟨l₁ ++ l₂⟩) := by
  constructor
  · intro h
    simp only [ConnectionManager.disconnect, list_remove_of_not_mem _ _ h]
    rfl
  · intro h
    obtain ⟨l₁, l₂, h1, h2, h3⟩ := list_remove_of_mem _ _ h
    exact ⟨l₁, l₂, h1, h2, by
      simp only [ConnectionManager.disconnect, h3]
      rfl⟩

/-- Counterexample to C7 as stated: deregistering a channel that is not
in the active set is NOT a no-op — `list.remove` raises `ValueError`
(modelled as `none`; a non-raising no-op would return
`some (ConnectionManager.mk [])`). -/
theorem disconnect_absent_raises :
    (ConnectionManager.mk []).disconnect ⟨0, false⟩ = none := rfl

/-- Witness for the amended C7: removal fails on an absent channel and
removes a present channel. -/
theorem disconnect_remove_spec_witness :
    ((ConnectionManager.mk [⟨5, false⟩]).disconnect ⟨7, false⟩ = none) ∧
    (∃ l₁ l₂, (⟨7, false⟩ : Channel) ∉ l₁ ∧
      [(⟨7, false⟩ : Channel)] = l₁ ++ ⟨7, false⟩ :: l₂ ∧
      (ConnectionManager.mk [⟨7, false⟩]).disconnect ⟨7, false⟩ =
        some ⟨l₁ ++ l₂⟩) :=
  ⟨(disconnect_remove_spec ⟨[⟨5, false⟩]⟩ ⟨7, false⟩).1 (by decide),
   (disconnect_remove_spec ⟨[⟨7, false⟩]⟩ ⟨7, false⟩).2 (by decide)⟩

/-- Counterexample to C8 as stated: `create_emitter` performs no
validation of the frequency bounds, so a payload with
`frequency_min = 100 > 50 = frequency_max` is admitted verbatim and the
stored record violates the invariant. -/
theorem create_emitter_freq_unvalidated :
    (create_emitter ⟨"X", "radar", "ship", "test", "high", 100, 50, none,
      none, none, 0, 0, 0, 85/100, "hostile"⟩ "e1" "t0").frequency_max <
    (create_emitter ⟨"X", "radar", "ship", "test", "high", 100, 50, none,
      none, none, 0, 0, 0, 85/100, "hostile"⟩ "e1" "t0").frequency_min := by
  norm_num [create_emitter]

/-- C8 (amended): `create_emitter` copies the payload's frequency bounds
verbatim and applies no validation, so the constructed record satisfies
`frequency_min ≤ frequency_max` exactly when the incoming payload does. -/
theorem create_emitter_copies_frequencies (p : EmitterCreate)
    (new_id now : String) :
    (create_emitter p new_id now).frequency_min = p.frequency_min ∧
    (create_emitter p new_id now).frequency_max = p.frequency_max ∧
    (p.frequency_min ≤ p.frequency_max →
      (create_emitter p new_id now).frequency_min ≤
        (create_emitter p new_id now).frequency_max) :=
  ⟨rfl, rfl, fun h => h⟩

/-- Witness for the amended C8 at a well-formed payload. -/
theorem create_emitter_copies_frequencies_witness :
    (create_emitter ⟨"Y", "radar", "ship", "test", "low", 50, 100, none,
      none, none, 0, 0, 0, 85/100, "neutral"⟩ "e2" "t1").frequency_min ≤
    (create_emitter ⟨"Y", "radar", "ship", "test", "low", 50, 100, none,
      none, none, 0, 0, 0, 85/100, "neutral"⟩ "e2" "t1").frequency_max :=
  (create_emitter_copies_frequencies _ "e2" "t1").2.2 (by norm_num)

/-- C9: the state-passing embedding of `generate_signal_update` returns
the source emitter record unchanged (the body contains no write to it)
and its output is the newly constructed Signal Update record. -/
theorem generate_signal_update_no_mutation (e : EmitterDict) (r : SigRand)
    (fallback_id now : String) :
    (generate_signal_update_st e r fallback_id now).1 = e ∧
    (generate_signal_update_st e r fallback_id now).2 =
      generate_signal_update e r fallback_id now :=
  ⟨rfl, rfl⟩

/-- C10: in the `assess_all_threats` response, `critical_count` is a
score threshold, not a count of "critical"-labelled emitters: it equals
the number of returned assessments whose score exceeds 0.8; every
returned assessment comes from a hostile-affiliation emitter of the
input; and a hostile emitter with threat level "high" scores
0.75 × 1.2 = 0.9 > 0.8, so it is counted. -/
theorem assess_all_threats_critical_count (emitters : List EmitterDict)
    (rs : List ThreatRand) (now : String) :
    ((assess_all_threats emitters rs now).critical_count =
      ((assess_all_threats emitters rs now).assessments.filter
        (fun a => a.threat_score > 8/10)).length) ∧
    (∀ a ∈ (assess_all_threats emitters rs now).assessments,
      ∃ e r, e ∈ emitters ∧ e.affiliation = "hostile" ∧
        a = assess_threat e r now) ∧
    (∀ e r, e.affiliation = "hostile" → e.threat_level = "high" →
      (assess_threat e r now).threat_score > 8/10) := by
  refine ⟨?_, ?_, ?_⟩
  · simp only [assess_all_threats]
    exact (((List.perm_insertionSort score_ge _).filter _).length_eq).symm
  · intro a ha
    simp only [assess_all_threats] at ha
    have ha' := (List.perm_insertionSort score_ge _).mem_iff.mp ha
    obtain ⟨p, hp, hpa⟩ := List.mem_map.mp ha'
    obtain ⟨e0, r0⟩ := p
    obtain ⟨he, -⟩ := List.of_mem_zip hp
    have hf := List.mem_filter.mp he
    exact ⟨e0, r0, hf.1, by simpa using hf.2, hpa.symm⟩
  · intro e0 r0 ha hl
    rw [assess_threat_score]
    have hbase : threat_base e0 = 9/10 := by
      simp [threat_base, threat_scores, ha, hl]
      norm_num
    rw [hbase]
    norm_num

/-- Witness for C10: a one-element hostile "high" working set — the
counting identity holds, the single returned assessment traces back to
the hostile input emitter, and a hostile "high" emitter passes the 0.8
threshold. -/
theorem assess_all_threats_critical_count_witness :
    ((assess_all_threats
        [⟨some "h1", "Golf", 0, 0, 100, 200, some (85/100), "hostile", "high"⟩]
        [⟨0, 120⟩] "t").critical_count =
      ((assess_all_threats
        [⟨some "h1", "Golf", 0, 0, 100, 200, some (85/100), "hostile", "high"⟩]
        [⟨0, 120⟩] "t").assessments.filter
          (fun a => a.threat_score > 8/10)).length) ∧
    (∃ e r,
      e ∈ [(⟨some "h1", "Golf", 0, 0, 100, 200, some (85/100), "hostile",
        "high"⟩ : EmitterDict)] ∧
      e.affiliation = "hostile" ∧
      assess_threat (⟨some "h1", "Golf", 0, 0, 100, 200, some (85/100),
        "hostile", "high"⟩ : EmitterDict) (⟨0, 120⟩ : ThreatRand) "t" =
        assess_threat e r "t") ∧
    (assess_threat (⟨some "h2", "Hotel", 0, 0, 100, 200, some (85/100),
      "hostile", "high"⟩ : EmitterDict) (⟨1, 200⟩ : ThreatRand)
      "t").threat_score > 8/10 := by
  refine ⟨(assess_all_threats_critical_count _ _ "t").1, ?_,
    (assess_all_threats_critical_count [] [] "t").2.2 _ _ rfl rfl⟩
  exact (assess_all_threats_critical_count
      [⟨some "h1", "Golf", 0, 0, 100, 200, some (85/100), "hostile", "high"⟩]
      [⟨0, 120⟩] "t").2.1
    (assess_threat
      ⟨some "h1", "Golf", 0, 0, 100, 200, some (85/100), "hostile", "high"⟩
      ⟨0, 120⟩ "t")
    (by simp [assess_all_threats, List.insertionSort, List.orderedInsert])

end EWDB
